import Mathlib

/-!
# Shallow embedding of `actualizar_paxban.py` (alerta-paxban)

This file embeds the classification / enrichment / severity core of
`src/actualizar_paxban.py` and proves the specification claims C1-C10
against it.

Modelling conventions:

* Python floats are modelled as exact rationals (`ℚ`).  All comparisons the
  program performs are far from any binary-rounding knife edge at the inputs
  used here, so the exact-rational model agrees with the double model on the
  modelled domain.
* Rational arithmetic is written with the helpers `qadd`, `qsub`, `qmul`,
  `qmax` below, which are kernel-reducible; the lemmas `qadd_eq`, `qsub_eq`,
  `qmul_eq`, `qmax_eq` identify them with the Mathlib operations.
* `shapely` geometry objects are modelled by the record `Geom` holding the two
  operations `main` calls on a geometry: `contains` (interior containment:
  a point on the boundary is NOT contained, per shapely semantics) and
  `distance` (Euclidean distance in raw geographic degrees; 0 for points of
  the set).  Distances are carried squared (`distanciaSq`), and the source's
  `poly.distance(p) < 0.09` becomes `distanciaSq p < 0.09²`, equivalent since
  both sides of the original comparison are nonnegative.
* Exceptions that the source catches with a bare `except: pass` per CSV row
  become `Option`: a row whose processing would raise is `none` and is simply
  not appended.
* `datetime.strptime(f"{d[5]} {d[6]}", "%Y-%m-%d %H%M")` is modelled by the
  field parsers `analizaFechaValida` / `analizaHoraMin`, which reproduce
  CPython's `_strptime` regexes (`%Y` = four digits, `%m` = `1[0-2]|0[1-9]|[1-9]`,
  `%d` = `3[01]|[12]\d|0[1-9]|[1-9]`, `%H` = `2[0-3]|[0-1]\d|\d`,
  `%M` = `[0-5]\d|\d`) including regex backtracking order, the final
  "unconverted data remains" check, and `datetime`'s calendar validation.
  The modelled domain assumes the two fields contain no whitespace, as CSV
  fields from the feed do.
* `datetime.utcnow()` is called by the source once per successfully parsed
  row (line 734); it is modelled by a clock `reloj : Nat → ℚ` (hours since
  epoch) indexed by the number of rows appended so far.
* Out of scope (external collaborators per the spec): HTTP retrieval, map
  rendering, e-mail/Telegram delivery, HTML/ZIP generation.  The pyproj-based
  presentation strings (`gtm`, `dist_info`, `dist_campamento`) are
  presentation-only and are not modelled; no claim depends on them.
-/

/-! ## Kernel-reducible rational arithmetic -/

/-- Addition on `ℚ` via `Rat.divInt` (kernel-reducible). -/
def qadd (a b : ℚ) : ℚ := Rat.divInt (a.num * b.den + b.num * a.den) (a.den * b.den)

/-- Subtraction on `ℚ` via `Rat.divInt` (kernel-reducible). -/
def qsub (a b : ℚ) : ℚ := Rat.divInt (a.num * b.den - b.num * a.den) (a.den * b.den)

/-- Multiplication on `ℚ` via `Rat.divInt` (kernel-reducible). -/
def qmul (a b : ℚ) : ℚ := Rat.divInt (a.num * b.num) (a.den * b.den)

/-- Maximum on `ℚ` via a decidable comparison (kernel-reducible). -/
def qmax (a b : ℚ) : ℚ := if a ≤ b then b else a

/-! ## Geography: points, rectangles, abstract geometries -/

/-- A geographic point (WGS84 degrees), as built by `Point(lon, lat)`. -/
structure Punto where
  lat : ℚ
  lon : ℚ
deriving DecidableEq, Repr

/-- A shapely geometry, abstracted to the two operations `main` invokes:
`poly.contains(p)` (interior containment, boundary excluded) and
`poly.distance(p)` (raw Euclidean distance in degree space, carried squared). -/
structure Geom where
  contiene : Punto → Bool
  distanciaSq : Punto → ℚ

/-- An axis-aligned rectangle polygon in geographic coordinates, the concrete
geometry used to instantiate `Geom` (the spec's end-to-end example core area is
the 4-point square from (17.60, -90.38) to (17.81, -90.00)). -/
structure Rect where
  latMin : ℚ
  latMax : ℚ
  lonMin : ℚ
  lonMax : ℚ
deriving DecidableEq, Repr

/-- shapely `contains` for a rectangle polygon: the point lies in the open
interior.  A point exactly on an edge is not contained. -/
def Rect.contienePunto (r : Rect) (p : Punto) : Bool :=
  (r.lonMin < p.lon && p.lon < r.lonMax) && (r.latMin < p.lat && p.lat < r.latMax)

/-- Closed containment (interior or boundary), used to phrase boundary facts. -/
def Rect.contieneCerrado (r : Rect) (p : Punto) : Bool :=
  (r.lonMin ≤ p.lon && p.lon ≤ r.lonMax) && (r.latMin ≤ p.lat && p.lat ≤ r.latMax)

/-- How far a coordinate `x` lies outside the interval `[lo, hi]` (0 inside). -/
def excesoFuera (lo hi x : ℚ) : ℚ := qmax (qsub lo x) (qmax (qsub x hi) 0)

/-- shapely `distance` squared, for a rectangle polygon: squared Euclidean
degree distance from the point to the (closed) rectangle; 0 on or inside it. -/
def Rect.distanciaSqA (r : Rect) (p : Punto) : ℚ :=
  let dLon := excesoFuera r.lonMin r.lonMax p.lon
  let dLat := excesoFuera r.latMin r.latMax p.lat
  qadd (qmul dLon dLon) (qmul dLat dLat)

/-- The `Geom` of a rectangle polygon. -/
def Rect.geom (r : Rect) : Geom :=
  { contiene := r.contienePunto, distanciaSq := r.distanciaSqA }

/-! ## Python `in` on strings (substring test), used for `"Paxbán" in nom` -/

/-- `esPrefijo pat s` : `pat` is a prefix of `s` (as character lists). -/
def esPrefijo : List Char → List Char → Bool
  | [], _ => true
  | _ :: _, [] => false
  | a :: as, b :: bs => a == b && esPrefijo as bs

/-- Substring test on character lists. -/
def contieneSubLista (pat : List Char) : List Char → Bool
  | [] => pat.isEmpty
  | c :: resto => esPrefijo pat (c :: resto) || contieneSubLista pat resto

/-- Python's `pat in s` for strings. -/
def contieneSub (pat s : String) : Bool :=
  contieneSubLista pat.toList s.toList

/-! ## CPython `_strptime` field matchers

Each `%`-directive compiles to a regex alternation; a matcher consumes a
prefix of the character list and yields the numeric value.  `pruebaAlts`
implements the regex engine's backtracking: alternatives are tried in order,
and a later alternative is tried whenever the continuation fails. -/

/-- Match exactly two digit characters whose value lies in `[lo, hi]`. -/
def dosDigitos (lo hi : Nat) : List Char → Option (Nat × List Char)
  | c1 :: c2 :: resto =>
    if c1.isDigit && c2.isDigit then
      let v := (c1.toNat - 48) * 10 + (c2.toNat - 48)
      if lo ≤ v && v ≤ hi then some (v, resto) else none
    else none
  | _ => none

/-- Match exactly one digit character whose value lies in `[lo, hi]`. -/
def unDigito (lo hi : Nat) : List Char → Option (Nat × List Char)
  | c :: resto =>
    if c.isDigit then
      let v := c.toNat - 48
      if lo ≤ v && v ≤ hi then some (v, resto) else none
    else none
  | [] => none

/-- Try the alternatives of one directive in regex order, backtracking into
later alternatives whenever the continuation `k` fails. -/
def pruebaAlts (alts : List (List Char → Option (Nat × List Char)))
    (cs : List Char) (k : Nat → List Char → Option α) : Option α :=
  match alts with
  | [] => none
  | a :: resto =>
    match a cs with
    | some (v, cs1) =>
      match k v cs1 with
      | some r => some r
      | none => pruebaAlts resto cs k
    | none => pruebaAlts resto cs k

/-- `%H` : `2[0-3]|[0-1]\d|\d`. -/
def altsHora : List (List Char → Option (Nat × List Char)) :=
  [dosDigitos 20 23, dosDigitos 0 19, unDigito 0 9]

/-- `%M` : `[0-5]\d|\d`. -/
def altsMinuto : List (List Char → Option (Nat × List Char)) :=
  [dosDigitos 0 59, unDigito 0 9]

/-- `%m` : `1[0-2]|0[1-9]|[1-9]`. -/
def altsMes : List (List Char → Option (Nat × List Char)) :=
  [dosDigitos 10 12, dosDigitos 1 9, unDigito 1 9]

/-- `%d` : `3[01]|[12]\d|0[1-9]|[1-9]`. -/
def altsDia : List (List Char → Option (Nat × List Char)) :=
  [dosDigitos 30 31, dosDigitos 10 29, dosDigitos 1 9, unDigito 1 9]

/-- `%Y` : exactly four digit characters. -/
def cuatroDigitos : List Char → Option (Nat × List Char)
  | c1 :: c2 :: c3 :: c4 :: resto =>
    if c1.isDigit && c2.isDigit && c3.isDigit && c4.isDigit then
      some ((((c1.toNat - 48) * 10 + (c2.toNat - 48)) * 10 + (c3.toNat - 48)) * 10
              + (c4.toNat - 48), resto)
    else none
  | _ => none

/-- Literal `-` in the format string. -/
def guion : List Char → Option (List Char)
  | '-' :: resto => some resto
  | _ => none

/-- The `%H%M` part of `strptime(..., "%Y-%m-%d %H%M")` applied to the time
field: first regex match in backtracking order, then CPython's trailing
"unconverted data remains" check (which does not backtrack). -/
def analizaHoraMin (cs : List Char) : Option (Nat × Nat) :=
  match pruebaAlts altsHora cs (fun h cs1 =>
          pruebaAlts altsMinuto cs1 (fun m cs2 => some (h, m, cs2))) with
  | some (h, m, resto) => if resto.isEmpty then some (h, m) else none
  | none => none

/-- The `%Y-%m-%d` part applied to the date field.  The literal `-` and the
following literal whitespace force full consumption of the field, with
backtracking, inside the regex itself. -/
def analizaFecha (cs : List Char) : Option (Nat × Nat × Nat) :=
  match cuatroDigitos cs with
  | none => none
  | some (y, cs1) =>
    match guion cs1 with
    | none => none
    | some cs2 =>
      pruebaAlts altsMes cs2 (fun mes cs3 =>
        match guion cs3 with
        | none => none
        | some cs4 =>
          pruebaAlts altsDia cs4 (fun dia cs5 =>
            if cs5.isEmpty then some (y, mes, dia) else none))

/-- Gregorian leap year, as `datetime` uses. -/
def bisiesto (y : Nat) : Bool :=
  y % 4 == 0 && (y % 100 != 0 || y % 400 == 0)

/-- Days in a month, as `datetime` validates. -/
def diasEnMes (y mes : Nat) : Nat :=
  if mes == 2 then (if bisiesto y then 29 else 28)
  else if mes == 4 || mes == 6 || mes == 9 || mes == 11 then 30
  else 31

/-- `%Y-%m-%d` plus the `datetime` constructor's validation (year at least
`MINYEAR = 1`, day within the month). -/
def analizaFechaValida (cs : List Char) : Option (Nat × Nat × Nat) :=
  match analizaFecha cs with
  | some (y, mes, dia) =>
    if 1 ≤ y && dia ≤ diasEnMes y mes then some (y, mes, dia) else none
  | none => none

/-! ## Python `float()` on plain decimal literals -/

/-- Split off the leading run of digit characters. -/
def tomaDigitos : List Char → (List Char × List Char)
  | [] => ([], [])
  | c :: resto =>
    if c.isDigit then
      let (ds, r) := tomaDigitos resto
      (c :: ds, r)
    else ([], c :: resto)

/-- Numeric value of a digit run. -/
def valorDigitos (ds : List Char) : Nat :=
  ds.foldl (fun a c => a * 10 + (c.toNat - 48)) 0

/-- Python `float()` restricted to the plain decimal forms the feed produces:
optional sign, digits, optional decimal point and fraction digits (at least
one digit overall).  Any other string is a `ValueError`, i.e. `none`.
(Exponent, inf/nan, underscore and whitespace-padded forms do not occur in the
modelled domain.) -/
def analizaFloat (cs : List Char) : Option ℚ :=
  let (neg, cs1) :=
    match cs with
    | '-' :: r => (true, r)
    | '+' :: r => (false, r)
    | r => (false, r)
  let (ent, cs2) := tomaDigitos cs1
  let arma : List Char → List Char → Option ℚ := fun entD fraD =>
    if entD.isEmpty && fraD.isEmpty then none
    else
      let n : Int := (valorDigitos entD) * 10 ^ fraD.length + valorDigitos fraD
      some (Rat.divInt (if neg then -n else n) (10 ^ fraD.length))
  match cs2 with
  | [] => arma ent []
  | '.' :: cs3 =>
    let (fra, cs4) := tomaDigitos cs3
    if cs4.isEmpty then arma ent fra else none
  | _ => none

/-! ## Calendar arithmetic: `datetime` subtraction in hours -/

/-- Days between a Gregorian civil date and 1970-01-01 (Hinnant's
`days_from_civil`; all intermediate divisions act on nonnegative values for
the years `datetime` admits). -/
def diasDesdeCivil (y mes dia : Int) : Int :=
  let y1 := if mes ≤ 2 then y - 1 else y
  let era := y1 / 400
  let yoe := y1 - era * 400
  let mp := (mes + 9) % 12
  let doy := (153 * mp + 2) / 5 + dia - 1
  let doe := yoe * 365 + yoe / 4 - yoe / 100 + doy
  era * 146097 + doe - 719468

/-- A `datetime` instant as rational hours since the Unix epoch. -/
def horasDesde (y mes dia hh mi : Nat) : ℚ :=
  Rat.divInt (((diasDesdeCivil y mes dia) * 24 + hh) * 60 + mi) 60

/-! ## `line.split(',')` -/

/-- Python `str.split(',')` on a character list. -/
def separaComas (cs : List Char) : List (List Char) :=
  cs.foldr
    (fun c acc =>
      match acc with
      | actual :: resto => if c = ',' then [] :: actual :: resto else (c :: actual) :: resto
      | [] => [[c]])
    [[]]

/-! ## The classification loop of `main` (lines 713-731) -/

/-- `0.09 ** 2`: the squared form of the raw degree threshold
`poly.distance(p) < 0.09` ("Buffer aproximado de 10km (0.09 grados)"). -/
def umbralGradosSq : ℚ := Rat.divInt 81 10000

/-- A monitored area as one entry of the `concesiones` mapping. -/
structure Area where
  nombre : String
  geom : Geom

/-- The mutable per-row state of the classification loop:
`en_paxban`, `en_prealerta`, `concesion_nombre` (initialised to
`False`, `False`, "Externa"). -/
structure Clasificacion where
  en_paxban : Bool
  en_prealerta : Bool
  concesion_nombre : String
deriving DecidableEq, Repr

/-- Initial loop state. -/
def clasifInicial : Clasificacion :=
  { en_paxban := false, en_prealerta := false, concesion_nombre := "Externa" }

/-- The loop `for nom, poly in concesiones.items(): if "Paxbán" in nom: ...`.
`contains` hits `break`; the buffer test is the `elif` and does not break. -/
def clasificarAux (p : Punto) : List Area → Clasificacion → Clasificacion
  | [], c => c
  | a :: resto, c =>
    if contieneSub "Paxbán" a.nombre then
      if a.geom.contiene p then
        { en_paxban := true, en_prealerta := c.en_prealerta, concesion_nombre := "Paxbán" }
      else if a.geom.distanciaSq p < umbralGradosSq then
        clasificarAux p resto
          { en_paxban := c.en_paxban, en_prealerta := true
            concesion_nombre := "Zona de Amortiguamiento" }
      else clasificarAux p resto c
    else clasificarAux p resto c

/-- Classification of one point against the loaded registry. -/
def clasificar (concesiones : List Area) (p : Punto) : Clasificacion :=
  clasificarAux p concesiones clasifInicial

/-! ## Recency color and per-row processing (lines 705-745) -/

/-- `color = "red" if horas <= 24 else "orange" if horas <= 48 else "yellow"`. -/
def colorDe (horas : ℚ) : String :=
  if horas ≤ 24 then "red" else if horas ≤ 48 then "orange" else "yellow"

/-- One entry of `puntos`, as appended at lines 737-744.  The pyproj-backed
presentation strings (`gtm`, `dist_info`, `dist_campamento`) are
presentation-only and omitted. -/
structure Registro where
  lat : ℚ
  lon : ℚ
  color : String
  alerta : Bool
  pre_alerta : Bool
  sat : String
  fecha : String
  horas : ℚ
  concesion : String
deriving DecidableEq, Repr

/-- The body of the per-line `try: ... except: pass` given the already split
fields `d` and the value `ahora` that `datetime.utcnow()` returns at line 734.
Any raised exception (missing field, bad float, bad timestamp) yields `none`
and the row is skipped. -/
def procesarCampos (concesiones : List Area) (ahora : ℚ) (sat : String)
    (d : List (List Char)) : Option Registro :=
  (d[0]?).bind fun latS =>
  (analizaFloat latS).bind fun lat =>
  (d[1]?).bind fun lonS =>
  (analizaFloat lonS).bind fun lon =>
  let c := clasificar concesiones { lat := lat, lon := lon }
  (d[5]?).bind fun fechaS =>
  (d[6]?).bind fun horaS =>
  (analizaFechaValida fechaS).bind fun ymd =>
  (analizaHoraMin horaS).bind fun hm =>
  let horas := qsub ahora (horasDesde ymd.1 ymd.2.1 ymd.2.2 hm.1 hm.2)
  some
    { lat := lat, lon := lon
      color := colorDe horas
      alerta := c.en_paxban, pre_alerta := c.en_prealerta
      sat := sat
      fecha := String.mk fechaS ++ " " ++ String.mk horaS
      horas := horas
      concesion := c.concesion_nombre }

/-- `for line in lines:` with the per-row clock.  `utcnow()` is only reached
by rows that parse, so the clock index advances only on appended rows.
Returns the appended records and the final clock index. -/
def procesarLineas (concesiones : List Area) (reloj : Nat → ℚ) (sat : String) :
    List String → Nat → (List Registro × Nat)
  | [], k => ([], k)
  | linea :: resto, k =>
    match procesarCampos concesiones (reloj k) sat (separaComas linea.toList) with
    | some r =>
      let par := procesarLineas concesiones reloj sat resto (k + 1)
      (r :: par.1, par.2)
    | none => procesarLineas concesiones reloj sat resto k

/-- `for sat in satelites:` over the downloaded line batches. -/
def procesarTodas (concesiones : List Area) (reloj : Nat → ℚ) :
    List (String × List String) → Nat → List Registro
  | [], _ => []
  | (sat, lineas) :: resto, k =>
    let par := procesarLineas concesiones reloj sat lineas k
    par.1 ++ procesarTodas concesiones reloj resto par.2

/-! ## `cargar_concesiones` (lines 632-639) -/

/-- The geometry source as the loader sees it: either any exception while
opening/decoding `concesiones1.geojson` (missing file, malformed JSON, bad
geometry), or a parsed feature list (display name and geometry per feature,
in file order). -/
inductive FuenteGeo where
  | fallo
  | rasgos (features : List (String × Geom))

/-- `cargar_concesiones`: on any exception it logs and returns `{}` — the
empty mapping — and the caller continues; a source with zero features also
yields the empty mapping, with no error raised. -/
def cargar_concesiones : FuenteGeo → List Area
  | .fallo => []
  | .rasgos fs => fs.map fun ng => { nombre := ng.1, geom := ng.2 }

/-! ## Severity selection and notification dispatch (lines 749-898) -/

/-- Which notification branch of `main` fires, with the records whose data
populate its message body (the branches at lines 770, 836, 898). -/
inductive Notificacion where
  | alertaIncendio (focos : List Registro)
  | preAlerta (focos : List Registro)
  | reporteMonitoreo
  | ninguna
deriving DecidableEq, Repr

/-- The observable outcome of one run of `main`'s monitor path:
`incendios.json` (all of `puntos`), the two active subsets, and the
notification decision. -/
structure Corrida where
  archivo : List Registro
  alertas : List Registro
  pre_alertas : List Registro
  notificacion : Notificacion
deriving Repr

/-- `main`'s monitor path after download: build `puntos`, dump all of them to
`incendios.json`, filter the two active subsets with the 1.5 h freshness
window (lines 756-757), and dispatch by strict priority
(`if alertas: ... elif pre_alertas: ... elif force_report: ...`). -/
def correr (concesiones : List Area) (reloj : Nat → ℚ)
    (descargas : List (String × List String)) (force_report : Bool) : Corrida :=
  let puntos := procesarTodas concesiones reloj descargas 0
  let alertas := puntos.filter fun p => p.alerta && decide (p.horas ≤ Rat.divInt 3 2)
  let pre_alertas := puntos.filter fun p => p.pre_alerta && decide (p.horas ≤ Rat.divInt 3 2)
  { archivo := puntos
    alertas := alertas
    pre_alertas := pre_alertas
    notificacion :=
      if alertas.isEmpty = false then .alertaIncendio alertas
      else if pre_alertas.isEmpty = false then .preAlerta pre_alertas
      else if force_report then .reporteMonitoreo
      else .ninguna }

/-! ## Definitions modelled from the spec (for comparison against the code) -/

/-- Modelled from the spec: meters spanned by one degree of latitude near the
monitored region (WGS84), as any distance-preserving planar projection for the
region realises it; rational approximation of 110574 m/degree. -/
def metrosPorGradoLat : ℚ := 110574

/-- Modelled from the spec: meters spanned by one degree of longitude at the
region's latitude band (about 17.7 N), i.e. 111320 times the cosine of the
latitude, as any distance-preserving planar projection for the region
realises it; rational approximation of 106041 m/degree.  (The code's own GTM
projection, scale 0.9998 near the central meridian -90.5, gives within 0.3
percent of this value.) -/
def metrosPorGradoLon : ℚ := 106041

/-- Modelled from the spec ("a buffer is the set of points within a fixed
planar distance (e.g. 10,000 m) of a core area's boundary, computed by
projecting the core polygon into a planar (distance-preserving) reference"):
the squared planar distance, in meters, from a point to the core rectangle,
obtained by scaling each geographic offset by the meters-per-degree factor of
its axis. -/
def distanciaPlanaSqM (r : Rect) (p : Punto) : ℚ :=
  let dLon := qmul (excesoFuera r.lonMin r.lonMax p.lon) metrosPorGradoLon
  let dLat := qmul (excesoFuera r.latMin r.latMax p.lat) metrosPorGradoLat
  qadd (qmul dLon dLon) (qmul dLat dLat)

/-- Modelled from the spec ("zero-padded to a canonical 4-digit 24-hour
format before parsing"): Python's `str.zfill(4)` on the time field. -/
def rellenaCuatro (cs : List Char) : List Char :=
  List.replicate (4 - cs.length) '0' ++ cs

/-! ## Concrete data for witnesses and counterexamples -/

/-- The spec's example core square, from (17.60, -90.38) to (17.81, -90.00). -/
def cuadroPaxban : Rect :=
  { latMin := Rat.divInt 1760 100, latMax := Rat.divInt 1781 100
    lonMin := Rat.divInt (-9038) 100, lonMax := Rat.divInt (-9000) 100 }

/-- The flagship concession feature; its display name contains "Paxbán". -/
def areaPaxban : Area := { nombre := "Concesión Paxbán", geom := cuadroPaxban.geom }

/-- A second, disjoint rectangle just south of the square (gap 0.05 degrees). -/
def cuadroSur : Rect :=
  { latMin := Rat.divInt 1740 100, latMax := Rat.divInt 1755 100
    lonMin := Rat.divInt (-9038) 100, lonMax := Rat.divInt (-9000) 100 }

/-- A second area whose display name also contains "Paxbán". -/
def areaPaxbanSur : Area := { nombre := "Paxbán Sur", geom := cuadroSur.geom }

/-- Reference instant used by the concrete runs: 2026-10-12 02:00 UTC. -/
def ahoraDemo : ℚ := horasDesde 2026 10 12 2 0

/-- A constant clock: every row sees the same `utcnow()` value. -/
def relojDemo : Nat → ℚ := fun _ => ahoraDemo

/-- A drifting clock: row `k` is processed `k` hours after the run started
(same start instant as `relojDemo`). -/
def relojDeriva : Nat → ℚ := fun k => qadd ahoraDemo (Rat.divInt k 1)

/-- A detection inside the core square, 1 h old at `ahoraDemo`. -/
def lineaConfirmada : String := "17.70,-90.15,330.1,1.0,1.0,2026-10-12,0100"

/-- A detection 0.02 degrees south of the square, 1 h old at `ahoraDemo`. -/
def lineaPrealerta : String := "17.58,-90.20,325.4,1.0,1.0,2026-10-12,0100"

/-- A detection far from the square. -/
def lineaRutina : String := "16.00,-91.00,312.9,1.0,1.0,2026-10-12,0100"

/-- A detection inside the core square, 2 h old at `ahoraDemo`. -/
def lineaConfirmadaVieja : String := "17.70,-90.15,330.1,1.0,1.0,2026-10-12,0000"

/-- A detection inside `cuadroSur` and within 0.06 degrees of `cuadroPaxban`. -/
def lineaAmbas : String := "17.54,-90.20,330.1,1.0,1.0,2026-10-12,0100"

/-- A truncated row: the acquisition time column is missing. -/
def lineaTruncada : String := "17.70,-90.15,330.1,1.0,1.0,2026-10-12"

/-- A row whose acquisition time fails to parse even after padding. -/
def lineaHoraMala : String := "17.70,-90.15,330.1,1.0,1.0,2026-10-12,xx"

/-- A row with a 3-digit acquisition time field (FIRMS meaning: 01:11). -/
def lineaHoraTresDigitos : String := "17.58,-90.20,325.4,1.0,1.0,2026-10-12,111"

/-- Nine well-formed rows and one truncated row. -/
def loteDiez : List String :=
  [ lineaConfirmada
  , lineaPrealerta
  , lineaRutina
  , lineaTruncada
  , "16.01,-91.00,312.9,1.0,1.0,2026-10-12,0100"
  , "16.02,-91.00,312.9,1.0,1.0,2026-10-12,0130"
  , "16.03,-91.00,312.9,1.0,1.0,2026-10-11,2300"
  , "16.04,-91.00,312.9,1.0,1.0,2026-10-10,0100"
  , "16.05,-91.00,312.9,1.0,1.0,2026-10-08,0100"
  , "16.06,-91.00,312.9,1.0,1.0,2026-10-12,0015"
  ]

/-- A point exactly on the southern edge of the core square. -/
def puntoBorde : Punto := { lat := Rat.divInt 1760 100, lon := Rat.divInt (-9020) 100 }

/-- A point 0.02 degrees south of the core square (inside any 10 km buffer). -/
def puntoCerca : Punto := { lat := Rat.divInt 1758 100, lon := Rat.divInt (-9020) 100 }

/-- A point 0.092 degrees due west of the core square: outside the code's
0.09-degree threshold, but within 10,000 planar meters of the boundary
(0.092 degrees of longitude at 17.7 N is about 9756 m). -/
def puntoOesteLejano : Punto := { lat := Rat.divInt 1770 100, lon := Rat.divInt (-90472) 1000 }

/-- The point of `lineaAmbas`: inside `cuadroSur`, within 0.06 degrees of
`cuadroPaxban`. -/
def puntoAmbas : Punto := { lat := Rat.divInt 1754 100, lon := Rat.divInt (-9020) 100 }

/-- A run whose batch holds one fresh CONFIRMED, one fresh PRE_ALERT and one
ROUTINE detection. -/
def corridaMixta : Corrida :=
  correr [areaPaxban] relojDemo
    [("MODIS_NRT", [lineaConfirmada, lineaPrealerta, lineaRutina])] false

/-- A run whose batch holds one stale (2 h) and one fresh (1 h) CONFIRMED
detection. -/
def corridaVieja : Corrida :=
  correr [areaPaxban] relojDemo
    [("MODIS_NRT", [lineaConfirmadaVieja, lineaConfirmada])] false

/-- A run against a registry with two areas whose names contain "Paxbán",
fed one detection inside the second area and within the buffer distance of
the first. -/
def corridaAmbas : Corrida :=
  correr [areaPaxban, areaPaxbanSur] relojDemo [("MODIS_NRT", [lineaAmbas])] false

/-- A run whose geometry source failed to load. -/
def corridaSinAreas : Corrida :=
  correr (cargar_concesiones .fallo) relojDemo [("MODIS_NRT", [lineaConfirmada])] false

/-- The record `corridaVieja` produces for `lineaConfirmadaVieja`. -/
def registroViejo : Registro :=
  { lat := Rat.divInt 1770 100, lon := Rat.divInt (-9015) 100
    color := "red", alerta := true, pre_alerta := false
    sat := "MODIS_NRT", fecha := "2026-10-12 0000"
    horas := 2, concesion := "Paxbán" }

/-- The record `corridaVieja` produces for `lineaConfirmada`. -/
def registroFresco : Registro :=
  { lat := Rat.divInt 1770 100, lon := Rat.divInt (-9015) 100
    color := "red", alerta := true, pre_alerta := false
    sat := "MODIS_NRT", fecha := "2026-10-12 0100"
    horas := 1, concesion := "Paxbán" }

/-- The record `corridaSinAreas` produces for `lineaConfirmada`. -/
def registroExterna : Registro :=
  { lat := Rat.divInt 1770 100, lon := Rat.divInt (-9015) 100
    color := "red", alerta := false, pre_alerta := false
    sat := "MODIS_NRT", fecha := "2026-10-12 0100"
    horas := 1, concesion := "Externa" }

/-- A clock extensionally equal to `relojDemo`, written differently. -/
def relojDemoBis : Nat → ℚ := fun _ => qadd ahoraDemo 0

/-- The six trailing well-formed rows of `loteDiez`. -/
def colaSeis : List String :=
  [ "16.01,-91.00,312.9,1.0,1.0,2026-10-12,0100"
  , "16.02,-91.00,312.9,1.0,1.0,2026-10-12,0130"
  , "16.03,-91.00,312.9,1.0,1.0,2026-10-11,2300"
  , "16.04,-91.00,312.9,1.0,1.0,2026-10-10,0100"
  , "16.05,-91.00,312.9,1.0,1.0,2026-10-08,0100"
  , "16.06,-91.00,312.9,1.0,1.0,2026-10-12,0015"
  ]

/-- The nine well-formed rows of `loteDiez`, without the truncated one. -/
def loteNueve : List String :=
  [lineaConfirmada, lineaPrealerta, lineaRutina] ++ colaSeis

/-! # Theorems

First the bridges between the kernel-reducible arithmetic helpers and the
Mathlib operations, then shared facts about the embedding, then the claim
theorems C1-C10. -/

theorem qadd_eq (a b : ℚ) : qadd a b = a + b := by
  have ha : ((a.den : ℚ)) ≠ 0 := by exact_mod_cast a.den_nz
  have hb : ((b.den : ℚ)) ≠ 0 := by exact_mod_cast b.den_nz
  conv_rhs => rw [← Rat.num_div_den a, ← Rat.num_div_den b]
  rw [div_add_div _ _ ha hb, qadd, Rat.divInt_eq_div]
  push_cast
  ring_nf

theorem qsub_eq (a b : ℚ) : qsub a b = a - b := by
  have ha : ((a.den : ℚ)) ≠ 0 := by exact_mod_cast a.den_nz
  have hb : ((b.den : ℚ)) ≠ 0 := by exact_mod_cast b.den_nz
  conv_rhs => rw [← Rat.num_div_den a, ← Rat.num_div_den b]
  rw [div_sub_div _ _ ha hb, qsub, Rat.divInt_eq_div]
  push_cast
  ring_nf

theorem qmul_eq (a b : ℚ) : qmul a b = a * b := by
  have ha : ((a.den : ℚ)) ≠ 0 := by exact_mod_cast a.den_nz
  have hb : ((b.den : ℚ)) ≠ 0 := by exact_mod_cast b.den_nz
  conv_rhs => rw [← Rat.num_div_den a, ← Rat.num_div_den b]
  rw [div_mul_div_comm, qmul, Rat.divInt_eq_div]
  push_cast
  ring_nf

theorem qmax_eq (a b : ℚ) : qmax a b = max a b := by
  rw [qmax, max_def]

/-- The archived snapshot is exactly the processed batch. -/
theorem correr_archivo (concesiones : List Area) (reloj : Nat → ℚ)
    (descargas : List (String × List String)) (fr : Bool) :
    (correr concesiones reloj descargas fr).archivo =
      procesarTodas concesiones reloj descargas 0 := rfl

/-- The active alert subset is the freshness filter over the archive. -/
theorem correr_alertas (concesiones : List Area) (reloj : Nat → ℚ)
    (descargas : List (String × List String)) (fr : Bool) :
    (correr concesiones reloj descargas fr).alertas =
      (correr concesiones reloj descargas fr).archivo.filter
        (fun p => p.alerta && decide (p.horas ≤ Rat.divInt 3 2)) := rfl

/-- The active pre-alert subset is the freshness filter over the archive. -/
theorem correr_pre_alertas (concesiones : List Area) (reloj : Nat → ℚ)
    (descargas : List (String × List String)) (fr : Bool) :
    (correr concesiones reloj descargas fr).pre_alertas =
      (correr concesiones reloj descargas fr).archivo.filter
        (fun p => p.pre_alerta && decide (p.horas ≤ Rat.divInt 3 2)) := rfl

/-- The notification decision as a function of the two active subsets. -/
theorem correr_notificacion (concesiones : List Area) (reloj : Nat → ℚ)
    (descargas : List (String × List String)) (fr : Bool) :
    (correr concesiones reloj descargas fr).notificacion =
      (if (correr concesiones reloj descargas fr).alertas.isEmpty = false then
        .alertaIncendio (correr concesiones reloj descargas fr).alertas
      else if (correr concesiones reloj descargas fr).pre_alertas.isEmpty = false then
        .preAlerta (correr concesiones reloj descargas fr).pre_alertas
      else if fr then .reporteMonitoreo
      else .ninguna) := rfl

/-- Every produced record's tier flags, area name and color come from one
classification of its own coordinates and from its own age. -/
theorem procesarCampos_inversion {concesiones : List Area} {ahora : ℚ} {sat : String}
    {d : List (List Char)} {r : Registro}
    (h : procesarCampos concesiones ahora sat d = some r) :
    ∃ p : Punto,
      r.alerta = (clasificar concesiones p).en_paxban ∧
      r.pre_alerta = (clasificar concesiones p).en_prealerta ∧
      r.concesion = (clasificar concesiones p).concesion_nombre ∧
      r.color = colorDe r.horas := by
  simp only [procesarCampos, Option.bind_eq_some] at h
  obtain ⟨latS, h0, lat, h1, lonS, h2, lon, h3, fechaS, h4, horaS, h5, ymd, h6, hm, h7, hr⟩ := h
  simp only [Option.some.injEq] at hr
  subst hr
  exact ⟨{ lat := lat, lon := lon }, rfl, rfl, rfl, rfl⟩

/-- Every record of `procesarLineas` arises from one `procesarCampos` call. -/
theorem mem_procesarLineas {concesiones : List Area} {reloj : Nat → ℚ} {sat : String} :
    ∀ {lineas : List String} {k : Nat} {r : Registro},
      r ∈ (procesarLineas concesiones reloj sat lineas k).1 →
      ∃ (ahora : ℚ) (d : List (List Char)), procesarCampos concesiones ahora sat d = some r := by
  intro lineas
  induction lineas with
  | nil => intro k r h; simp [procesarLineas] at h
  | cons l resto ih =>
    intro k r h
    cases hpc : procesarCampos concesiones (reloj k) sat (separaComas l.toList) with
    | none =>
      rw [show procesarLineas concesiones reloj sat (l :: resto) k
            = procesarLineas concesiones reloj sat resto k by
          simp only [procesarLineas, hpc]] at h
      exact ih h
    | some r0 =>
      have h2 : (procesarLineas concesiones reloj sat (l :: resto) k).1
          = r0 :: (procesarLineas concesiones reloj sat resto (k + 1)).1 := by
        simp only [procesarLineas, hpc]
      rw [h2] at h
      rcases List.mem_cons.mp h with h3 | h3
      · exact ⟨reloj k, separaComas l.toList, h3 ▸ hpc⟩
      · exact ih h3

/-- Every record of `procesarTodas` arises from one `procesarCampos` call. -/
theorem mem_procesarTodas {concesiones : List Area} {reloj : Nat → ℚ} :
    ∀ {descargas : List (String × List String)} {k : Nat} {r : Registro},
      r ∈ procesarTodas concesiones reloj descargas k →
      ∃ (ahora : ℚ) (sat : String) (d : List (List Char)),
        procesarCampos concesiones ahora sat d = some r := by
  intro descargas
  induction descargas with
  | nil => intro k r h; simp [procesarTodas] at h
  | cons par resto ih =>
    intro k r h
    obtain ⟨sat, lineas⟩ := par
    rw [show procesarTodas concesiones reloj ((sat, lineas) :: resto) k
          = (procesarLineas concesiones reloj sat lineas k).1 ++
            procesarTodas concesiones reloj resto
              (procesarLineas concesiones reloj sat lineas k).2 from rfl] at h
    rcases List.mem_append.mp h with h2 | h2
    · obtain ⟨ahora, d, hd⟩ := mem_procesarLineas h2
      exact ⟨ahora, sat, d, hd⟩
    · exact ih h2

/-- A registry with no "Paxbán"-named area leaves the loop state untouched. -/
theorem clasificarAux_sin_coincidencias (p : Punto) :
    ∀ (areas : List Area) (c : Clasificacion),
      areas.countP (fun a => contieneSub "Paxbán" a.nombre) = 0 →
      clasificarAux p areas c = c := by
  intro areas
  induction areas with
  | nil => intro c _; rfl
  | cons a resto ih =>
    intro c h
    by_cases hm : contieneSub "Paxbán" a.nombre = true
    · rw [List.countP_cons_of_pos (fun a => contieneSub "Paxbán" a.nombre) resto hm] at h
      omega
    · rw [List.countP_cons_of_neg (fun a => contieneSub "Paxbán" a.nombre) resto hm] at h
      simp only [clasificarAux, hm]
      simp only [Bool.false_eq_true, if_false]
      exact ih c h

/-- Core exclusivity invariant of the classification loop: starting from a
state with `en_paxban = false`, and with at most one matching area left (none
at all if `en_prealerta` is already set), the loop never ends with both tier
flags raised. -/
theorem clasificarAux_excluyente (p : Punto) :
    ∀ (areas : List Area) (c : Clasificacion),
      c.en_paxban = false →
      (c.en_prealerta = true → areas.countP (fun a => contieneSub "Paxbán" a.nombre) = 0) →
      areas.countP (fun a => contieneSub "Paxbán" a.nombre) ≤ 1 →
      (clasificarAux p areas c).en_paxban = false ∨
        (clasificarAux p areas c).en_prealerta = false := by
  intro areas
  induction areas with
  | nil => intro c hpx _ _; left; exact hpx
  | cons a resto ih =>
    intro c hpx hpre hcount
    by_cases hm : contieneSub "Paxbán" a.nombre = true
    · have hc0 : resto.countP (fun a => contieneSub "Paxbán" a.nombre) = 0 := by
        rw [List.countP_cons_of_pos (fun a => contieneSub "Paxbán" a.nombre) resto hm] at hcount
        omega
      have hcpre : c.en_prealerta = false := by
        cases hcp : c.en_prealerta
        · rfl
        · have h2 := hpre hcp
          rw [List.countP_cons_of_pos (fun a => contieneSub "Paxbán" a.nombre) resto hm] at h2
          omega
      by_cases hcont : a.geom.contiene p = true
      · right
        simp only [clasificarAux, hm, hcont, if_true]
        exact hcpre
      · by_cases hdist : a.geom.distanciaSq p < umbralGradosSq
        · have heq : clasificarAux p (a :: resto) c =
              clasificarAux p resto
                { en_paxban := c.en_paxban, en_prealerta := true
                  concesion_nombre := "Zona de Amortiguamiento" } := by
            simp only [clasificarAux, hm, if_true]
            rw [if_neg (by simp [hcont]), if_pos hdist]
          rw [heq, clasificarAux_sin_coincidencias p resto _ hc0]
          left
          exact hpx
        · have heq : clasificarAux p (a :: resto) c = clasificarAux p resto c := by
            simp only [clasificarAux, hm, if_true]
            rw [if_neg (by simp [hcont]), if_neg hdist]
          rw [heq]
          exact ih c hpx (fun _ => hc0) (by omega)
    · have heq : clasificarAux p (a :: resto) c = clasificarAux p resto c := by
        simp only [clasificarAux, hm]
        simp only [Bool.false_eq_true, if_false]
      have hcnt : (a :: resto).countP (fun a => contieneSub "Paxbán" a.nombre) =
          resto.countP (fun a => contieneSub "Paxbán" a.nombre) :=
        List.countP_cons_of_neg (fun a => contieneSub "Paxbán" a.nombre) resto hm
      rw [heq]
      exact ih c hpx (fun hp => by rw [← hcnt]; exact hpre hp) (by omega)

/-- C1 (amended): tier exclusivity holds for every registry in which at most
one area's display name contains "Paxbán" (in particular for the production
registry with its single flagship concession): no record is then a member of
both the active alert subset and the active pre-alert subset of a run.  (The
unrestricted claim is refuted by `C1_ambos_niveles_contraejemplo`.) -/
theorem C1_exclusion_niveles (concesiones : List Area) (reloj : Nat → ℚ)
    (descargas : List (String × List String)) (fr : Bool) (r : Registro)
    (h1 : concesiones.countP (fun a => contieneSub "Paxbán" a.nombre) ≤ 1) :
    ¬(r ∈ (correr concesiones reloj descargas fr).alertas ∧
      r ∈ (correr concesiones reloj descargas fr).pre_alertas) := by
  rintro ⟨ha, hp⟩
  rw [correr_alertas] at ha
  rw [correr_pre_alertas] at hp
  obtain ⟨hmem, hflag⟩ := List.mem_filter.mp ha
  obtain ⟨-, hflagp⟩ := List.mem_filter.mp hp
  rw [Bool.and_eq_true] at hflag hflagp
  rw [correr_archivo] at hmem
  obtain ⟨ahora, sat, d, hd⟩ := mem_procesarTodas hmem
  obtain ⟨p, hal, hpre, -, -⟩ := procesarCampos_inversion hd
  have hexcl := clasificarAux_excluyente p concesiones clasifInicial rfl
    (fun h => absurd h (by decide)) h1
  rw [show clasificarAux p concesiones clasifInicial = clasificar concesiones p from rfl]
    at hexcl
  rcases hexcl with h2 | h2
  · rw [← hal] at h2
    rw [hflag.1] at h2
    cases h2
  · rw [← hpre] at h2
    rw [hflagp.1] at h2
    cases h2

/-- C1 witness: the exclusivity theorem applied to the single-core-area demo
run and its fresh CONFIRMED record. -/
theorem C1_exclusion_niveles_testigo :
    ([areaPaxban].countP (fun a => contieneSub "Paxbán" a.nombre) ≤ 1) ∧
    ¬(registroFresco ∈ corridaMixta.alertas ∧
      registroFresco ∈ corridaMixta.pre_alertas) :=
  ⟨by decide,
    C1_exclusion_niveles [areaPaxban] relojDemo
      [("MODIS_NRT", [lineaConfirmada, lineaPrealerta, lineaRutina])] false
      registroFresco (by decide)⟩

/-- C1 counterexample: with a registry holding two areas whose names contain
"Paxbán", a detection lying inside the second area and within 0.09 degrees of
the first leaves the loop with BOTH flags set (the buffer `elif` of the first
area fires before the containment `break` of the second), so the single
archived detection populates the alert subset and the pre-alert subset of the
same run simultaneously, contradicting the claim. -/
theorem C1_ambos_niveles_contraejemplo :
    corridaAmbas.archivo.length = 1 ∧
    corridaAmbas.alertas = corridaAmbas.archivo ∧
    corridaAmbas.pre_alertas = corridaAmbas.archivo := by
  exact ⟨by decide, by decide, by decide⟩

/-- C2 (confirmed): dominant-tier strict priority.  If the active CONFIRMED
subset is nonempty the run notifies with the CONFIRMED branch, whose payload
is exactly that subset (each payload record is a fresh CONFIRMED detection;
no PRE_ALERT branch content is emitted even when active PRE_ALERT detections
exist).  If no active CONFIRMED exists but an active PRE_ALERT does, the run
notifies with the PRE_ALERT branch. -/
theorem C2_prioridad_confirmado (concesiones : List Area) (reloj : Nat → ℚ)
    (descargas : List (String × List String)) (fr : Bool) :
    ((correr concesiones reloj descargas fr).alertas ≠ [] →
      (correr concesiones reloj descargas fr).notificacion =
        .alertaIncendio (correr concesiones reloj descargas fr).alertas ∧
      ∀ r ∈ (correr concesiones reloj descargas fr).alertas,
        r.alerta = true ∧ r.horas ≤ Rat.divInt 3 2) ∧
    ((correr concesiones reloj descargas fr).alertas = [] →
      (correr concesiones reloj descargas fr).pre_alertas ≠ [] →
      (correr concesiones reloj descargas fr).notificacion =
        .preAlerta (correr concesiones reloj descargas fr).pre_alertas) := by
  constructor
  · intro hne
    have hE : (correr concesiones reloj descargas fr).alertas.isEmpty = false := by
      rw [Bool.eq_false_iff]
      intro hT
      exact hne (List.isEmpty_iff.mp hT)
    constructor
    · rw [correr_notificacion, if_pos hE]
    · intro r hr
      rw [correr_alertas] at hr
      have h2 := (List.mem_filter.mp hr).2
      rw [Bool.and_eq_true] at h2
      exact ⟨h2.1, of_decide_eq_true h2.2⟩
  · intro hno hne
    have hE : (correr concesiones reloj descargas fr).alertas.isEmpty = true :=
      List.isEmpty_iff.mpr hno
    have hEp : (correr concesiones reloj descargas fr).pre_alertas.isEmpty = false := by
      rw [Bool.eq_false_iff]
      intro hT
      exact hne (List.isEmpty_iff.mp hT)
    rw [correr_notificacion, if_neg (by simp [hE]), if_pos hEp]

/-- C2 witness: a run with a fresh CONFIRMED, a fresh PRE_ALERT and a ROUTINE
detection notifies with the CONFIRMED branch and its own subset as payload. -/
theorem C2_prioridad_confirmado_testigo :
    corridaMixta.alertas ≠ [] ∧ corridaMixta.pre_alertas ≠ [] ∧
    corridaMixta.notificacion = .alertaIncendio corridaMixta.alertas :=
  ⟨by decide, by decide,
    ((C2_prioridad_confirmado [areaPaxban] relojDemo
        [("MODIS_NRT", [lineaConfirmada, lineaPrealerta, lineaRutina])] false).1
      (by decide)).1⟩

/-- A point on or inside a rectangle is at squared degree distance 0 from it. -/
theorem distanciaSqA_cero_de_cerrado (r : Rect) (p : Punto)
    (h : r.contieneCerrado p = true) : r.distanciaSqA p = 0 := by
  rw [Rect.contieneCerrado] at h
  simp only [Bool.and_eq_true, decide_eq_true_eq] at h
  obtain ⟨⟨h1, h2⟩, h3, h4⟩ := h
  rw [Rect.distanciaSqA]
  have e1 : excesoFuera r.lonMin r.lonMax p.lon = 0 := by
    rw [excesoFuera, qmax_eq, qmax_eq, qsub_eq, qsub_eq]
    rw [show max (p.lon - r.lonMax) 0 = 0 from max_eq_right (by linarith)]
    exact max_eq_right (by linarith)
  have e2 : excesoFuera r.latMin r.latMax p.lat = 0 := by
    rw [excesoFuera, qmax_eq, qmax_eq, qsub_eq, qsub_eq]
    rw [show max (p.lat - r.latMax) 0 = 0 from max_eq_right (by linarith)]
    exact max_eq_right (by linarith)
  rw [e1, e2, qmul_eq, qadd_eq]
  ring

/-- C3 (amended): for a detection outside the core polygon, PRE_ALERT
membership is decided by the raw geographic-degree threshold
`poly.distance(p) < 0.09` (squared here), not by a projected planar
10,000 m distance.  Stated for a single-area registry whose name contains
"Paxbán". -/
theorem C3_umbral_en_grados (r : Rect) (nom : String) (p : Punto)
    (hnom : contieneSub "Paxbán" nom = true)
    (h : r.contienePunto p = false) :
    ((clasificar [{ nombre := nom, geom := r.geom }] p).en_prealerta = true
      ↔ r.distanciaSqA p < umbralGradosSq) := by
  simp only [clasificar, clasificarAux, hnom, if_true]
  rw [show ({ nombre := nom, geom := r.geom } : Area).geom.contiene p = false from h]
  simp only [Bool.false_eq_true, if_false]
  rw [show ({ nombre := nom, geom := r.geom } : Area).geom.distanciaSq p
        = r.distanciaSqA p from rfl]
  by_cases hd : r.distanciaSqA p < umbralGradosSq
  · rw [if_pos hd]
    simp [clasificarAux, hd]
  · rw [if_neg hd]
    simp [clasificarAux, clasifInicial, hd]

/-- C3 witness: the degree-threshold characterization applied to the point
0.02 degrees south of the demo square. -/
theorem C3_umbral_en_grados_testigo :
    contieneSub "Paxbán" "Concesión Paxbán" = true ∧
    cuadroPaxban.contienePunto puntoCerca = false ∧
    ((clasificar [{ nombre := "Concesión Paxbán", geom := cuadroPaxban.geom }]
        puntoCerca).en_prealerta = true
      ↔ cuadroPaxban.distanciaSqA puntoCerca < umbralGradosSq) :=
  ⟨by decide, by decide,
    C3_umbral_en_grados cuadroPaxban "Concesión Paxbán" puntoCerca
      (by decide) (by decide)⟩

/-- C3 counterexample: the point 0.092 degrees due west of the core square is
within 10,000 planar meters of its boundary (squared planar distance below
10000² = 100000000 m²), yet the code classifies it ROUTINE ("Externa"),
because 0.092 ≥ 0.09 in raw degrees: membership is not decided by a planar
10,000 m distance. -/
theorem C3_contraejemplo :
    cuadroPaxban.contienePunto puntoOesteLejano = false ∧
    distanciaPlanaSqM cuadroPaxban puntoOesteLejano < 100000000 ∧
    (clasificar [areaPaxban] puntoOesteLejano).en_prealerta = false ∧
    (clasificar [areaPaxban] puntoOesteLejano).concesion_nombre = "Externa" := by
  exact ⟨by decide, by decide, by decide, by decide⟩

/-- C4 (amended): a point exactly on a core polygon's boundary is classified
PRE_ALERT, not CONFIRMED: shapely's `contains` is interior-only, so the
containment test fails, and the boundary point's zero distance passes the
buffer test.  Containment semantics are exclusive, not inclusive. -/
theorem C4_borde_es_prealerta (r : Rect) (nom : String) (p : Punto)
    (hnom : contieneSub "Paxbán" nom = true)
    (hcer : r.contieneCerrado p = true)
    (hint : r.contienePunto p = false) :
    (clasificar [{ nombre := nom, geom := r.geom }] p).en_paxban = false ∧
    (clasificar [{ nombre := nom, geom := r.geom }] p).en_prealerta = true ∧
    (clasificar [{ nombre := nom, geom := r.geom }] p).concesion_nombre
      = "Zona de Amortiguamiento" := by
  have hd : r.distanciaSqA p < umbralGradosSq := by
    rw [distanciaSqA_cero_de_cerrado r p hcer]
    decide
  simp only [clasificar, clasificarAux, hnom, if_true]
  rw [show ({ nombre := nom, geom := r.geom } : Area).geom.contiene p = false from hint]
  simp only [Bool.false_eq_true, if_false]
  rw [show ({ nombre := nom, geom := r.geom } : Area).geom.distanciaSq p
        = r.distanciaSqA p from rfl]
  rw [if_pos hd]
  simp [clasificarAux, clasifInicial]

/-- C4 witness: the boundary rule applied to a point on the southern edge of
the demo square. -/
theorem C4_borde_es_prealerta_testigo :
    cuadroPaxban.contieneCerrado puntoBorde = true ∧
    cuadroPaxban.contienePunto puntoBorde = false ∧
    (clasificar [{ nombre := "Concesión Paxbán", geom := cuadroPaxban.geom }]
        puntoBorde).en_prealerta = true :=
  ⟨by decide, by decide,
    (C4_borde_es_prealerta cuadroPaxban "Concesión Paxbán" puntoBorde
      (by decide) (by decide) (by decide)).2.1⟩

/-- C4 counterexample: the concrete boundary point of the spec's example
square is classified PRE_ALERT ("Zona de Amortiguamiento"), refuting the
claimed inclusive-containment CONFIRMED classification. -/
theorem C4_borde_contraejemplo :
    cuadroPaxban.contieneCerrado puntoBorde = true ∧
    (clasificar [areaPaxban] puntoBorde).en_paxban = false ∧
    (clasificar [areaPaxban] puntoBorde).en_prealerta = true ∧
    (clasificar [areaPaxban] puntoBorde).concesion_nombre = "Zona de Amortiguamiento" := by
  exact ⟨by decide, by decide, by decide, by decide⟩

/-- If the active alert subset is nonempty, the run notifies with the
CONFIRMED branch and that subset as payload. -/
theorem notificacion_de_alertas_ne (concesiones : List Area) (reloj : Nat → ℚ)
    (descargas : List (String × List String)) (fr : Bool)
    (hne : (correr concesiones reloj descargas fr).alertas ≠ []) :
    (correr concesiones reloj descargas fr).notificacion =
      .alertaIncendio (correr concesiones reloj descargas fr).alertas := by
  have hE : (correr concesiones reloj descargas fr).alertas.isEmpty = false := by
    rw [Bool.eq_false_iff]
    intro hT
    exact hne (List.isEmpty_iff.mp hT)
  rw [correr_notificacion, if_pos hE]

/-- C5 (confirmed): the freshness window.  Every archived record older than
1.5 h is excluded from both active subsets (yet remains archived); every
archived CONFIRMED record of age at most 1.5 h joins the active alert subset
and makes the run notify with the CONFIRMED branch; every archived PRE_ALERT
record of age at most 1.5 h joins the active pre-alert subset. -/
theorem C5_ventana_frescura (concesiones : List Area) (reloj : Nat → ℚ)
    (descargas : List (String × List String)) (fr : Bool) (r : Registro)
    (hr : r ∈ (correr concesiones reloj descargas fr).archivo) :
    (Rat.divInt 3 2 < r.horas →
      r ∉ (correr concesiones reloj descargas fr).alertas ∧
      r ∉ (correr concesiones reloj descargas fr).pre_alertas) ∧
    (r.horas ≤ Rat.divInt 3 2 → r.alerta = true →
      r ∈ (correr concesiones reloj descargas fr).alertas ∧
      (correr concesiones reloj descargas fr).notificacion =
        .alertaIncendio (correr concesiones reloj descargas fr).alertas) ∧
    (r.horas ≤ Rat.divInt 3 2 → r.pre_alerta = true →
      r ∈ (correr concesiones reloj descargas fr).pre_alertas) := by
  refine ⟨?_, ?_, ?_⟩
  · intro hstale
    have hdec : decide (r.horas ≤ Rat.divInt 3 2) = false := by
      rw [decide_eq_false_iff_not]
      exact not_le.mpr hstale
    constructor
    · rw [correr_alertas]
      intro hmem
      have h2 := (List.mem_filter.mp hmem).2
      rw [Bool.and_eq_true, hdec] at h2
      exact absurd h2.2 (by simp)
    · rw [correr_pre_alertas]
      intro hmem
      have h2 := (List.mem_filter.mp hmem).2
      rw [Bool.and_eq_true, hdec] at h2
      exact absurd h2.2 (by simp)
  · intro hfresh halerta
    have hmem : r ∈ (correr concesiones reloj descargas fr).alertas := by
      rw [correr_alertas]
      refine List.mem_filter.mpr ⟨hr, ?_⟩
      rw [halerta, decide_eq_true hfresh]
      rfl
    refine ⟨hmem, notificacion_de_alertas_ne concesiones reloj descargas fr ?_⟩
    intro h0
    rw [h0] at hmem
    cases hmem
  · intro hfresh hpre
    rw [correr_pre_alertas]
    refine List.mem_filter.mpr ⟨hr, ?_⟩
    rw [hpre, decide_eq_true hfresh]
    rfl

/-- C5 witness: in the run with one 2 h old and one 1 h old CONFIRMED
detection, the stale record is archived but in neither active subset, while
the fresh one is active and triggers the CONFIRMED notification. -/
theorem C5_ventana_frescura_testigo :
    registroViejo ∈ corridaVieja.archivo ∧
    Rat.divInt 3 2 < registroViejo.horas ∧
    (registroViejo ∉ corridaVieja.alertas ∧ registroViejo ∉ corridaVieja.pre_alertas) ∧
    registroFresco ∈ corridaVieja.alertas ∧
    corridaVieja.notificacion = .alertaIncendio corridaVieja.alertas := by
  refine ⟨by decide, by decide, ?_, ?_, ?_⟩
  · exact (C5_ventana_frescura [areaPaxban] relojDemo
      [("MODIS_NRT", [lineaConfirmadaVieja, lineaConfirmada])] false registroViejo
      (by decide)).1 (by decide)
  · exact ((C5_ventana_frescura [areaPaxban] relojDemo
      [("MODIS_NRT", [lineaConfirmadaVieja, lineaConfirmada])] false registroFresco
      (by decide)).2.1 (by decide) (by decide)).1
  · exact ((C5_ventana_frescura [areaPaxban] relojDemo
      [("MODIS_NRT", [lineaConfirmadaVieja, lineaConfirmada])] false registroFresco
      (by decide)).2.1 (by decide) (by decide)).2

/-- C6 (amended): a failed (or empty) geometry load yields the empty registry
and the run CONTINUES: every detection is still processed and classified —
all as "Externa"/ROUTINE, with no tier flags — the active subsets are empty,
and no alert fires.  There is no `AreaLoadError` and no abort.  (The claimed
abort-before-classification is refuted by `C6_contraejemplo`.) -/
theorem C6_carga_fallida_continua (reloj : Nat → ℚ)
    (descargas : List (String × List String)) (fr : Bool) :
    (∀ r ∈ (correr (cargar_concesiones .fallo) reloj descargas fr).archivo,
      r.alerta = false ∧ r.pre_alerta = false ∧ r.concesion = "Externa") ∧
    (correr (cargar_concesiones .fallo) reloj descargas fr).alertas = [] ∧
    (correr (cargar_concesiones .fallo) reloj descargas fr).pre_alertas = [] ∧
    (correr (cargar_concesiones .fallo) reloj descargas fr).notificacion =
      (if fr then .reporteMonitoreo else .ninguna) := by
  have hflags : ∀ r ∈ (correr (cargar_concesiones .fallo) reloj descargas fr).archivo,
      r.alerta = false ∧ r.pre_alerta = false ∧ r.concesion = "Externa" := by
    intro r hr
    rw [correr_archivo] at hr
    obtain ⟨ahora, sat, d, hd⟩ := mem_procesarTodas hr
    obtain ⟨p, hal, hpre, hcon, -⟩ := procesarCampos_inversion hd
    exact ⟨hal.trans rfl, hpre.trans rfl, hcon.trans rfl⟩
  have ha : (correr (cargar_concesiones .fallo) reloj descargas fr).alertas = [] := by
    rw [correr_alertas, List.filter_eq_nil_iff]
    intro a hmem
    rw [(hflags a hmem).1]
    simp
  have hp : (correr (cargar_concesiones .fallo) reloj descargas fr).pre_alertas = [] := by
    rw [correr_pre_alertas, List.filter_eq_nil_iff]
    intro a hmem
    rw [(hflags a hmem).2.1]
    simp
  refine ⟨hflags, ha, hp, ?_⟩
  rw [correr_notificacion, ha, hp]
  simp

/-- C6 witness: the continuation theorem applied to the demo run with a
failed load: its single record is archived as "Externa" and nothing alerts. -/
theorem C6_carga_fallida_continua_testigo :
    registroExterna ∈ corridaSinAreas.archivo ∧
    (registroExterna.alerta = false ∧ registroExterna.pre_alerta = false ∧
      registroExterna.concesion = "Externa") ∧
    corridaSinAreas.alertas = [] :=
  ⟨by decide,
    (C6_carga_fallida_continua relojDemo [("MODIS_NRT", [lineaConfirmada])] false).1
      registroExterna (by decide),
    (C6_carga_fallida_continua relojDemo [("MODIS_NRT", [lineaConfirmada])] false).2.1⟩

/-- C6 counterexample: with the geometry source missing/malformed, the loader
returns the empty mapping (no `AreaLoadError` exists in the program) and the
run still classifies its input — the archived snapshot holds one record,
classified "Externa" — refuting the claimed fatal abort before
classification. -/
theorem C6_contraejemplo :
    cargar_concesiones .fallo = [] ∧
    corridaSinAreas.archivo.length = 1 ∧
    corridaSinAreas.archivo.map (fun r => r.concesion) = ["Externa"] ∧
    corridaSinAreas.notificacion = .ninguna := by
  exact ⟨rfl, by decide, by decide, by decide⟩

/-- C7 (confirmed): malformed-row resilience.  A row whose fields raise on
parsing (missing columns, bad coordinates, bad timestamp — `procesarCampos`
returns `none` for every clock value) is skipped and the rest of the batch is
processed exactly as if the row were absent (records and clock usage
unchanged); no exception escapes the per-row handler (the embedding is a
total function).  Concretely, the ten-row batch with one truncated row
yields exactly nine records. -/
theorem C7_filas_malformadas (concesiones : List Area) (reloj : Nat → ℚ) (sat : String)
    (antes despues : List String) (mala : String) (k : Nat)
    (hmala : ∀ ahora : ℚ, procesarCampos concesiones ahora sat
      (separaComas mala.toList) = none) :
    procesarLineas concesiones reloj sat (antes ++ mala :: despues) k =
      procesarLineas concesiones reloj sat (antes ++ despues) k ∧
    (procesarLineas [areaPaxban] relojDemo "MODIS_NRT" loteDiez 0).1.length = 9 := by
  refine ⟨?_, by decide⟩
  induction antes generalizing k with
  | nil =>
    simp only [List.nil_append]
    simp only [procesarLineas, hmala (reloj k)]
  | cons l resto ih =>
    simp only [List.cons_append, procesarLineas]
    cases hpc : procesarCampos concesiones (reloj k) sat (separaComas l.toList) with
    | none =>
      simp only [hpc]
      exact ih k
    | some r0 =>
      simp only [hpc, List.append_eq]
      rw [ih (k + 1)]

/-- C7 witness: the splice theorem applied to the ten-row demo batch around
its truncated row, which fails for every clock value. -/
theorem C7_filas_malformadas_testigo :
    (∀ ahora : ℚ, procesarCampos [areaPaxban] ahora "MODIS_NRT"
      (separaComas lineaTruncada.toList) = none) ∧
    procesarLineas [areaPaxban] relojDemo "MODIS_NRT" loteDiez 0 =
      procesarLineas [areaPaxban] relojDemo "MODIS_NRT" loteNueve 0 :=
  ⟨fun _ => rfl,
    (C7_filas_malformadas [areaPaxban] relojDemo "MODIS_NRT"
      [lineaConfirmada, lineaPrealerta, lineaRutina] colaSeis lineaTruncada 0
      (fun _ => rfl)).1⟩

/-- C8 (amended): the acquisition-time field is parsed as-is — no zero
padding occurs anywhere — by `strptime`'s lenient one-or-two-digit `%H%M`
matching, and a field the regex cannot parse makes the whole row raise and be
skipped (no midnight default).  In particular a 3-digit field "111" parses as
11:01, where zero-padding to "0111" would give 01:11. -/
theorem C8_hora_sin_relleno (concesiones : List Area) (ahora : ℚ) (sat : String)
    (f0 f1 f2 f3 f4 f5 f6 : List Char)
    (hhm : analizaHoraMin f6 = none) :
    procesarCampos concesiones ahora sat [f0, f1, f2, f3, f4, f5, f6] = none ∧
    analizaHoraMin "111".toList = some (11, 1) ∧
    analizaHoraMin (rellenaCuatro "111".toList) = some (1, 11) := by
  refine ⟨?_, by decide, by decide⟩
  simp only [procesarCampos, List.getElem?_cons_zero, List.getElem?_cons_succ,
    Option.some_bind]
  cases analizaFloat f0 with
  | none => rfl
  | some lat =>
    simp only [Option.some_bind]
    cases analizaFloat f1 with
    | none => rfl
    | some lon =>
      simp only [Option.some_bind]
      cases analizaFechaValida f5 with
      | none => rfl
      | some ymd =>
        simp only [Option.some_bind, hhm]
        rfl

/-- C8 witness: the row-skipping rule applied to the fields of a row whose
time field "xx" cannot be parsed. -/
theorem C8_hora_sin_relleno_testigo :
    analizaHoraMin "xx".toList = none ∧
    procesarCampos [areaPaxban] ahoraDemo "MODIS_NRT"
      ["17.70".toList, "-90.15".toList, "330.1".toList, "1.0".toList, "1.0".toList,
        "2026-10-12".toList, "xx".toList] = none :=
  ⟨by decide,
    (C8_hora_sin_relleno [areaPaxban] ahoraDemo "MODIS_NRT" "17.70".toList
      "-90.15".toList "330.1".toList "1.0".toList "1.0".toList "2026-10-12".toList
      "xx".toList (by decide)).1⟩

/-- C8 counterexample: no zero-padding happens before parsing — the 3-digit
time "111" parses as 11:01 (the row's age at 2026-10-12 02:00 comes out as
-541/60 h, i.e. the timestamp 11:01), while the claimed pad-then-parse would
give 01:11 — and a time field that fails to parse drops the row entirely
(`none`) instead of defaulting its timestamp to midnight. -/
theorem C8_contraejemplo :
    analizaHoraMin "111".toList = some (11, 1) ∧
    analizaHoraMin (rellenaCuatro "111".toList) = some (1, 11) ∧
    (procesarCampos [areaPaxban] ahoraDemo "MODIS_NRT"
        (separaComas lineaHoraTresDigitos.toList)).map (fun r => r.horas) =
      some (Rat.divInt (-541) 60) ∧
    procesarCampos [areaPaxban] ahoraDemo "MODIS_NRT"
      (separaComas lineaHoraMala.toList) = none := by
  exact ⟨by decide, by decide, by decide, by decide⟩

/-- C9 (amended): the recency color is a total function of `age_hours` with
breakpoints at 24 h and 48 h ONLY: red for ages up to 24 h inclusive, orange
up to 48 h inclusive, and yellow for everything beyond 48 h — there is no
72 h breakpoint and no separate catch-all bucket beyond 72 h.  Exact ages
24.0 and 48.0 fall in the earlier bucket (inclusive upper bounds). -/
theorem C9_tramos_color (h : ℚ) :
    (colorDe h = "red" ↔ h ≤ 24) ∧
    (colorDe h = "orange" ↔ 24 < h ∧ h ≤ 48) ∧
    (colorDe h = "yellow" ↔ 48 < h) ∧
    colorDe 24 = "red" ∧ colorDe 48 = "orange" ∧ colorDe 72 = "yellow" := by
  refine ⟨?_, ?_, ?_, by decide, by decide, by decide⟩
  · rcases le_or_lt h 24 with h1 | h1
    · rw [colorDe, if_pos h1]
      simp [h1]
    · rw [colorDe, if_neg (not_le.mpr h1)]
      constructor
      · intro he
        rcases le_or_lt h 48 with h2 | h2
        · rw [if_pos h2] at he
          exact absurd he (by decide)
        · rw [if_neg (not_le.mpr h2)] at he
          exact absurd he (by decide)
      · intro h2
        linarith
  · rcases le_or_lt h 24 with h1 | h1
    · rw [colorDe, if_pos h1]
      constructor
      · intro he
        exact absurd he (by decide)
      · rintro ⟨h2, -⟩
        linarith
    · rcases le_or_lt h 48 with h2 | h2
      · rw [colorDe, if_neg (not_le.mpr h1), if_pos h2]
        simp [h1, h2]
      · rw [colorDe, if_neg (not_le.mpr h1), if_neg (not_le.mpr h2)]
        constructor
        · intro he
          exact absurd he (by decide)
        · rintro ⟨-, h3⟩
          linarith
  · rcases le_or_lt h 24 with h1 | h1
    · rw [colorDe, if_pos h1]
      constructor
      · intro he
        exact absurd he (by decide)
      · intro h2
        linarith
    · rcases le_or_lt h 48 with h2 | h2
      · rw [colorDe, if_neg (not_le.mpr h1), if_pos h2]
        constructor
        · intro he
          exact absurd he (by decide)
        · intro h3
          linarith
      · rw [colorDe, if_neg (not_le.mpr h1), if_neg (not_le.mpr h2)]
        simp [h2]

/-- C9 counterexample: there is no distinct bucket beyond 72 h — ages 49 h,
72 h and 100 h all map to the same bucket "yellow", refuting the claimed
breakpoint at exactly 72 h with a catch-all beyond it. -/
theorem C9_contraejemplo :
    colorDe 49 = "yellow" ∧ colorDe 72 = "yellow" ∧ colorDe 100 = "yellow" := by
  exact ⟨by decide, by decide, by decide⟩

/-- C10 (amended): the batch output is a function of the input rows and of
the per-row clock sequence — one `utcnow()` observation per appended row —
so two processings whose clocks agree at every row index produce identical
output.  (Agreement at the start instant alone is NOT enough:
`C10_contraejemplo`.) -/
theorem C10_determinismo_reloj_por_fila (concesiones : List Area) (sat : String)
    (reloj1 reloj2 : Nat → ℚ) (lineas : List String) (k : Nat)
    (h : ∀ i, reloj1 i = reloj2 i) :
    procesarLineas concesiones reloj1 sat lineas k =
      procesarLineas concesiones reloj2 sat lineas k := by
  induction lineas generalizing k with
  | nil => rfl
  | cons l resto ih =>
    simp only [procesarLineas, h k]
    cases procesarCampos concesiones (reloj2 k) sat (separaComas l.toList) with
    | none => exact ih k
    | some r0 => rw [ih (k + 1)]

/-- C10 witness: two extensionally equal clocks yield identical outputs. -/
theorem C10_determinismo_reloj_por_fila_testigo :
    (∀ i, relojDemo i = relojDemoBis i) ∧
    procesarLineas [areaPaxban] relojDemo "MODIS_NRT"
        [lineaConfirmada, lineaConfirmada] 0 =
      procesarLineas [areaPaxban] relojDemoBis "MODIS_NRT"
        [lineaConfirmada, lineaConfirmada] 0 := by
  have hf : ∀ i, relojDemo i = relojDemoBis i := by
    intro i
    simp [relojDemo, relojDemoBis, qadd_eq]
  exact ⟨hf, C10_determinismo_reloj_por_fila [areaPaxban] "MODIS_NRT" relojDemo
    relojDemoBis [lineaConfirmada, lineaConfirmada] 0 hf⟩

/-- C10 counterexample: two processings of the same batch whose clocks agree
at the run's start (row 0) but differ at row 1 — the second row is processed
one hour later, as `utcnow()` is re-read per row — produce different output
records, refuting the claim that one shared reference instant determines all
ages. -/
theorem C10_contraejemplo :
    relojDemo 0 = relojDeriva 0 ∧
    (procesarLineas [areaPaxban] relojDemo "MODIS_NRT"
        [lineaConfirmada, lineaConfirmada] 0).1 ≠
      (procesarLineas [areaPaxban] relojDeriva "MODIS_NRT"
        [lineaConfirmada, lineaConfirmada] 0).1 := by
  exact ⟨by decide, by decide⟩
